import Mathlib

/-!
Shallow embedding of the PyGoRP AI service (`src/ai-service/main.py`).

Text is modelled as `List Char` (Python `str`), floating-point arithmetic as
exact rationals `ℚ`, dictionaries as association lists, and the
`raise`/`except` control flow of the handlers as `Except String`.
Wall-clock artefacts (`request_id`, `processing_time`, the health-check
timestamp) and the artificial `asyncio.sleep` delays carry no information and
are outside the shallow embedding; every other field of every response is
modelled.
-/

namespace PyGoRP

/-- Python `str.lower()`: lowercase every character. -/
def pyLower (s : List Char) : List Char := s.map Char.toLower

/-- Worker for `pySplit`: `cur` holds the (reversed) characters of the word
being scanned; whitespace ends the current word, empty words are dropped. -/
def splitAux : List Char → List Char → List (List Char)
  | cur, [] => if cur.isEmpty then [] else [cur.reverse]
  | cur, c :: cs =>
    if c.isWhitespace then
      if cur.isEmpty then splitAux [] cs else cur.reverse :: splitAux [] cs
    else splitAux (c :: cur) cs

/-- Python `str.split()` with no separator: split on runs of whitespace,
dropping empty tokens. -/
def pySplit (s : List Char) : List (List Char) := splitAux [] s

/-- Python `" ".join(ws)`. -/
def joinSpace : List (List Char) → List Char
  | [] => []
  | [w] => w
  | w :: ws => w ++ ' ' :: joinSpace ws

/-- Bool test: `a` is a leading segment of `b`. -/
def isPrefixL : List Char → List Char → Bool
  | [], _ => true
  | _ :: _, [] => false
  | a :: as, b :: bs => a == b && isPrefixL as bs

/-- Python `needle in hay` on strings: contiguous-substring containment. -/
def containsL : List Char → List Char → Bool
  | [], needle => needle.isEmpty
  | c :: t, needle => isPrefixL needle (c :: t) || containsL t needle

/-- The fixed positive dictionary of `analyze_sentiment`. -/
def positive_words : List (List Char) :=
  ["good".data, "great".data, "excellent".data, "amazing".data,
   "wonderful".data, "love".data]

/-- The fixed negative dictionary of `analyze_sentiment`. -/
def negative_words : List (List Char) :=
  ["bad".data, "terrible".data, "awful".data, "hate".data,
   "worst".data, "poor".data]

/-- The `scores` sub-dictionary of the sentiment result. -/
structure SentimentScores where
  positive : ℚ
  negative : ℚ
  neutral : ℚ
deriving DecidableEq

/-- Return value of `analyze_sentiment`. -/
structure SentimentResult where
  sentiment : String
  confidence : ℚ
  scores : SentimentScores
deriving DecidableEq

/-- `analyze_sentiment` from `main.py`: each dictionary word contributes 1 to
its count when it occurs (case-insensitively, as a substring) in the text;
the majority wins, a tie is neutral; float arithmetic is modelled in `ℚ`. -/
def analyze_sentiment (text : List Char) : SentimentResult :=
  let text_lower := pyLower text
  let positive_count := (positive_words.filter (fun w => containsL text_lower w)).length
  let negative_count := (negative_words.filter (fun w => containsL text_lower w)).length
  let d : ℕ := max (pySplit text).length 1
  let scores : SentimentScores :=
    { positive := (positive_count : ℚ) / d
      negative := (negative_count : ℚ) / d
      neutral := 1 - ((positive_count : ℚ) + negative_count) / d }
  if negative_count < positive_count then
    { sentiment := "positive"
      confidence := min (9 / 10) (1 / 2 + (positive_count : ℚ) * (1 / 10))
      scores := scores }
  else if positive_count < negative_count then
    { sentiment := "negative"
      confidence := min (9 / 10) (1 / 2 + (negative_count : ℚ) * (1 / 10))
      scores := scores }
  else
    { sentiment := "neutral", confidence := 3 / 5, scores := scores }

/-- One step of building `word_freq`: `word_freq[w] = word_freq.get(w, 0) + 1`,
keeping keys in first-insertion order as a Python dict does. -/
def bump : List (List Char × ℕ) → List Char → List (List Char × ℕ)
  | [], w => [(w, 1)]
  | (k, v) :: rest, w =>
    if k = w then (k, v + 1) :: rest else (k, v) :: bump rest w

/-- The `word_freq` dict of `extract_keywords`: frequencies of the tokens
longer than 3 characters, keys in first-seen order. -/
def word_freq (tokens : List (List Char)) : List (List Char × ℕ) :=
  (tokens.filter (fun w => 3 < w.length)).foldl bump []

/-- The sort order of `extract_keywords`: descending frequency.  Python's
`sorted(..., key=lambda x: x[1], reverse=True)` is a stable sort under this
order, which `List.insertionSort` implements. -/
def byFreqDesc (p q : List Char × ℕ) : Prop := q.2 ≤ p.2

instance : DecidableRel byFreqDesc := fun p q => Nat.decLe q.2 p.2

instance : IsTotal (List Char × ℕ) byFreqDesc := ⟨fun a b => le_total b.2 a.2⟩

instance : IsTrans (List Char × ℕ) byFreqDesc := ⟨fun _ _ _ h1 h2 => le_trans h2 h1⟩

/-- Return value of `extract_keywords`. -/
structure KeywordsResult where
  keywords : List (List Char)
  frequencies : List (List Char × ℕ)
deriving DecidableEq

/-- `extract_keywords` from `main.py`. -/
def extract_keywords (text : List Char) (max_keywords : ℕ) : KeywordsResult :=
  let words := pySplit (pyLower text)
  let sorted := (List.insertionSort byFreqDesc (word_freq words)).take max_keywords
  { keywords := sorted.map Prod.fst, frequencies := sorted }

/-- Return value of `generate_summary`. -/
structure SummaryResult where
  summary : List Char
  original_length : ℕ
  summary_length : ℕ
  compression_ratio : ℚ
deriving DecidableEq

/-- `generate_summary` from `main.py`.  The `compression_ratio` field divides
by `len(words)`; when the text has zero words Python raises
`ZeroDivisionError("division by zero")`, modelled as `Except.error`. -/
def generate_summary (text : List Char) (max_length : ℕ) : Except String SummaryResult :=
  let words := pySplit text
  let summary :=
    if words.length ≤ max_length then text
    else joinSpace (words.take max_length) ++ ['.', '.', '.']
  if words.length = 0 then Except.error "division by zero"
  else
    Except.ok
      { summary := summary
        original_length := words.length
        summary_length := (pySplit summary).length
        compression_ratio := ((pySplit summary).length : ℚ) / (words.length : ℚ) }

/-- The `AnalysisResponse` envelope (the timestamp-derived `request_id` and
the wall-clock `processing_time` are outside the embedding). -/
structure AnalysisResponse (α : Type) where
  status : String
  result : Option α
  confidence : Option ℚ
  error : Option String
deriving DecidableEq

/-- The three result shapes a text-analysis request can carry. -/
inductive TAResult where
  | sent (r : SentimentResult)
  | keyw (r : KeywordsResult)
  | summ (r : SummaryResult)
deriving DecidableEq

/-- `result.get("confidence")` of the handler: only the sentiment result
dictionary has a `confidence` key. -/
def resultConfidence : TAResult → Option ℚ
  | .sent r => some r.confidence
  | _ => none

/-- The `POST /api/v1/analyze/text` handler `analyze_text`.  The `except`
block turns any raised error (the 400 `HTTPException` for an unknown selector,
or the `ZeroDivisionError` escaping `generate_summary`) into a failed
envelope carrying `str(e)`. -/
def analyze_text (text : List Char) (analysis_type : String) : AnalysisResponse TAResult :=
  if analysis_type = "sentiment" then
    let r := TAResult.sent (analyze_sentiment text)
    { status := "completed", result := some r, confidence := resultConfidence r, error := none }
  else if analysis_type = "keywords" then
    let r := TAResult.keyw (extract_keywords text 5)
    { status := "completed", result := some r, confidence := resultConfidence r, error := none }
  else if analysis_type = "summary" then
    match generate_summary text 100 with
    | Except.ok s =>
      let r := TAResult.summ s
      { status := "completed", result := some r, confidence := resultConfidence r, error := none }
    | Except.error e =>
      { status := "failed", result := none, confidence := none, error := some e }
  else
    { status := "failed", result := none, confidence := none,
      error := some ("400: Unsupported analysis type: " ++ analysis_type) }

/-- One `label`/`confidence` pair of the image classification result. -/
structure LabelConfidence where
  label : String
  confidence : ℚ
deriving DecidableEq

/-- The image-analysis result dictionary. -/
structure ImageResult where
  predictions : List LabelConfidence
  dominant_color : String
  image_quality : String
deriving DecidableEq

/-- The fixed classification payload of `analyze_image`. -/
def classification_result : ImageResult :=
  { predictions :=
      [⟨"cat", 17 / 20⟩, ⟨"animal", 23 / 25⟩, ⟨"pet", 39 / 50⟩]
    dominant_color := "#8B4513"
    image_quality := "high" }

/-- The `POST /api/v1/analyze/image` handler `analyze_image`: the image
payload is never inspected. -/
def analyze_image (image_url : Option String) (image_data : Option String)
    (analysis_type : String) : AnalysisResponse ImageResult :=
  if analysis_type = "classification" then
    { status := "completed", result := some classification_result,
      confidence := some (17 / 20), error := none }
  else
    { status := "failed", result := none, confidence := none,
      error := some ("400: Unsupported analysis type: " ++ analysis_type) }

/-- The two result shapes of `ml_prediction`. -/
inductive MLResult where
  | regressionResult (prediction : ℚ) (feature_importance : List (String × ℚ))
  | classificationResult (prediction : String) (probabilities : List (String × ℚ))
deriving DecidableEq

/-- The `POST /api/v1/ml/predict` handler `ml_prediction`: only the
`model_name` is ever read; `input_data` and `parameters` are ignored. -/
def ml_prediction (model_name : String) (input_data : List (String × String))
    (parameters : Option (List (String × String))) : AnalysisResponse MLResult :=
  if model_name = "regression" then
    { status := "completed"
      result := some (.regressionResult (85 / 2)
        [("feature1", 3 / 10), ("feature2", 1 / 4), ("feature3", 9 / 20)])
      confidence := some (4 / 5), error := none }
  else if model_name = "classification" then
    { status := "completed"
      result := some (.classificationResult "class_A"
        [("class_A", 7 / 10), ("class_B", 1 / 5), ("class_C", 1 / 10)])
      confidence := some (4 / 5), error := none }
  else
    { status := "failed", result := none, confidence := none,
      error := some ("400: Unknown model: " ++ model_name) }

/-- One entry of the `GET /api/v1/models` catalog. -/
structure ModelDescriptor where
  name : String
  kind : String
  description : String
deriving DecidableEq

/-- The `GET /api/v1/models` handler `list_models`: a hardcoded catalog
(the JSON field `type` is named `kind` here, `type` not being a usable
field name in Lean). -/
def list_models : List ModelDescriptor :=
  [⟨"sentiment_analyzer", "text_analysis", "Analyzes sentiment in text"⟩,
   ⟨"keyword_extractor", "text_analysis", "Extracts keywords from text"⟩,
   ⟨"image_classifier", "computer_vision", "Classifies images"⟩,
   ⟨"regression_model", "regression", "Predicts continuous values"⟩,
   ⟨"classification_model", "classification", "Predicts categorical values"⟩]

/-- A request to any of the service's endpoints. -/
inductive Request where
  | text (body : List Char) (analysis_type : String)
  | image (image_url : Option String) (image_data : Option String) (analysis_type : String)
  | ml (model_name : String) (input_data : List (String × String))
      (parameters : Option (List (String × String)))
  | models
  | health
deriving DecidableEq

/-- A response from any of the service's endpoints (health timestamp
omitted as wall-clock data). -/
inductive Response where
  | text (r : AnalysisResponse TAResult)
  | image (r : AnalysisResponse ImageResult)
  | ml (r : AnalysisResponse MLResult)
  | models (catalog : List ModelDescriptor)
  | health (status service : String)
deriving DecidableEq

/-- The service's dispatch: every handler is a pure function of its own
request; the app object holds no mutable state. -/
def handle : Request → Response
  | .text t ty => .text (analyze_text t ty)
  | .image u d ty => .image (analyze_image u d ty)
  | .ml n i p => .ml (ml_prediction n i p)
  | .models => .models list_models
  | .health => .health "healthy" "pygorp-ai-service"

/-- A whole session: requests are handled independently, in order. -/
def serve (rs : List Request) : List Response := rs.map handle

/-- Lookup in an association list, defaulting to 0 (Python `dict.get(w, 0)`). -/
def lookupN : List (List Char × ℕ) → List Char → ℕ
  | [], _ => 0
  | (k, v) :: rest, w => if k = w then v else lookupN rest w

/-- Number of occurrences of `w` in a token list (a keyword's "frequency"). -/
def countL (w : List Char) : List (List Char) → ℕ
  | [] => 0
  | x :: l => (if x = w then 1 else 0) + countL w l

/-! ## Helper lemmas -/

theorem splitAux_good : ∀ (t cur : List Char), (∀ c ∈ cur, c.isWhitespace = false) →
    ∀ w ∈ splitAux cur t, w ≠ [] ∧ ∀ c ∈ w, c.isWhitespace = false := by
  intro t
  induction t with
  | nil =>
    intro cur hcur w hw
    simp only [splitAux] at hw
    by_cases h : cur.isEmpty
    · simp [h] at hw
    · simp [h] at hw
      subst hw
      refine ⟨by simpa [List.isEmpty_iff] using h, fun c hc => hcur c (by simpa using hc)⟩
  | cons c cs ih =>
    intro cur hcur w hw
    simp only [splitAux] at hw
    by_cases hws : c.isWhitespace
    · simp only [hws, if_true] at hw
      by_cases hemp : cur.isEmpty
      · simp only [hemp, if_true] at hw
        exact ih [] (by simp) w hw
      · simp only [hemp, if_false] at hw
        rcases List.mem_cons.mp hw with rfl | hw
        · refine ⟨by simpa [List.isEmpty_iff] using hemp, fun x hx => hcur x (by simpa using hx)⟩
        · exact ih [] (by simp) w hw
    · simp only [hws, if_false] at hw
      refine ih (c :: cur) ?_ w hw
      intro x hx
      rcases List.mem_cons.mp hx with rfl | hx
      · simpa using hws
      · exact hcur x hx

theorem pySplit_good (t : List Char) :
    ∀ w ∈ pySplit t, w ≠ [] ∧ ∀ c ∈ w, c.isWhitespace = false :=
  splitAux_good t [] (by simp)

theorem splitAux_append_no_ws :
    ∀ (w : List Char), (∀ c ∈ w, c.isWhitespace = false) →
    ∀ (cur rest : List Char), splitAux cur (w ++ rest) = splitAux (w.reverse ++ cur) rest := by
  intro w
  induction w with
  | nil => intro _ cur rest; simp
  | cons c cs ih =>
    intro hw cur rest
    have hc : c.isWhitespace = false := hw c (List.mem_cons_self c cs)
    simp only [List.cons_append, splitAux, hc, if_false, Bool.false_eq_true, List.append_eq]
    rw [ih (fun x hx => hw x (List.mem_cons_of_mem c hx)) (c :: cur) rest]
    simp

theorem pySplit_joinSpace_append_length :
    ∀ (ws : List (List Char)),
    (∀ u ∈ ws, u ≠ [] ∧ ∀ c ∈ u, c.isWhitespace = false) →
    ∀ (s : List Char), (∀ c ∈ s, c.isWhitespace = false) →
    ws ≠ [] →
    (pySplit (joinSpace ws ++ s)).length = ws.length := by
  intro ws
  induction ws with
  | nil => intro _ _ _ h; exact absurd rfl h
  | cons w ws ih =>
    intro hgood s hs _
    have hw := hgood w (List.mem_cons_self w ws)
    cases ws with
    | nil =>
      show (splitAux [] (joinSpace [w] ++ s)).length = 1
      have e1 : joinSpace [w] = w := rfl
      rw [e1, splitAux_append_no_ws w hw.2 [] s, List.append_nil]
      rw [← List.append_nil s, splitAux_append_no_ws s hs w.reverse []]
      have hne : (s.reverse ++ w.reverse) ≠ [] := by simp [hw.1]
      simp [splitAux, List.isEmpty_iff, hne]
    | cons u ws2 =>
      have e1 : joinSpace (w :: u :: ws2) ++ s = w ++ (' ' :: (joinSpace (u :: ws2) ++ s)) := by
        show (w ++ ' ' :: joinSpace (u :: ws2)) ++ s = _
        simp
      show (splitAux [] (joinSpace (w :: u :: ws2) ++ s)).length = ws2.length + 2
      rw [e1, splitAux_append_no_ws w hw.2 [] (' ' :: (joinSpace (u :: ws2) ++ s)), List.append_nil]
      have hsp : (' ' : Char).isWhitespace = true := by decide
      have hne : w.reverse.isEmpty = false := by
        simp [List.isEmpty_iff, hw.1]
      rw [splitAux, if_pos hsp, if_neg (by simp [hne])]
      have := ih (fun x hx => hgood x (List.mem_cons_of_mem w hx)) s hs (by simp)
      simp only [pySplit] at this
      simp [this]

theorem containsL_nil : ∀ hay : List Char, containsL hay [] = true
  | [] => rfl
  | _ :: t => by simp [containsL, isPrefixL, containsL_nil t]

theorem isPrefixL_self_append : ∀ (n rest : List Char), isPrefixL n (n ++ rest) = true
  | [], _ => rfl
  | a :: as, rest => by simp [isPrefixL, isPrefixL_self_append as rest]

theorem containsL_infix : ∀ (pre n rest : List Char), containsL (pre ++ (n ++ rest)) n = true := by
  intro pre
  induction pre with
  | nil =>
    intro n rest
    cases n with
    | nil => simpa using containsL_nil rest
    | cons c n' =>
      simp only [List.nil_append, List.cons_append, containsL, List.append_eq]
      rw [← List.cons_append, isPrefixL_self_append]
      simp
  | cons p pre' ih =>
    intro n rest
    simp only [List.cons_append, containsL, List.append_eq, ih n rest, Bool.or_true]

theorem lookupN_bump_self : ∀ (acc : List (List Char × ℕ)) (w : List Char),
    lookupN (bump acc w) w = lookupN acc w + 1 := by
  intro acc w
  induction acc with
  | nil => simp [bump, lookupN]
  | cons p rest ih =>
    obtain ⟨k, v⟩ := p
    by_cases h : k = w
    · simp [bump, lookupN, h]
    · simp [bump, lookupN, h, ih]

theorem lookupN_bump_other : ∀ (acc : List (List Char × ℕ)) (w x : List Char), x ≠ w →
    lookupN (bump acc w) x = lookupN acc x := by
  intro acc w x hxw
  have hwx : w ≠ x := fun h => hxw h.symm
  induction acc with
  | nil => simp [bump, lookupN, hwx]
  | cons p rest ih =>
    obtain ⟨k, v⟩ := p
    by_cases h : k = w
    · subst h
      simp [bump, lookupN, hwx]
    · simp [bump, lookupN, h, ih]

theorem lookupN_foldl_bump : ∀ (l : List (List Char)) (acc : List (List Char × ℕ)) (w : List Char),
    lookupN (l.foldl bump acc) w = lookupN acc w + countL w l := by
  intro l
  induction l with
  | nil => intro acc w; simp [countL]
  | cons x l ih =>
    intro acc w
    simp only [List.foldl_cons, ih, countL]
    by_cases h : x = w
    · subst h
      rw [lookupN_bump_self]
      simp
      omega
    · rw [lookupN_bump_other acc x w (fun hh => h hh.symm)]
      simp [h]

theorem bump_keys (acc : List (List Char × ℕ)) (w : List Char) :
    (bump acc w).map Prod.fst =
      if w ∈ acc.map Prod.fst then acc.map Prod.fst else acc.map Prod.fst ++ [w] := by
  induction acc with
  | nil => simp [bump]
  | cons p rest ih =>
    obtain ⟨k, v⟩ := p
    by_cases h : k = w
    · simp [bump, h]
    · have hwk : w ≠ k := fun hh => h hh.symm
      simp only [bump, h, if_false, List.map_cons, ih]
      by_cases h2 : w ∈ rest.map Prod.fst <;>
        simp [h2, List.mem_cons, hwk]

theorem nodup_keys_bump (acc : List (List Char × ℕ)) (w : List Char)
    (h : (acc.map Prod.fst).Nodup) : ((bump acc w).map Prod.fst).Nodup := by
  rw [bump_keys]
  by_cases h2 : w ∈ acc.map Prod.fst
  · simpa [h2] using h
  · simp only [h2, if_false]
    rw [List.nodup_append]
    refine ⟨h, List.nodup_singleton w, fun a ha hb => ?_⟩
    simp at hb
    exact h2 (hb ▸ ha)

theorem nodup_keys_foldl_bump : ∀ (l : List (List Char)) (acc : List (List Char × ℕ)),
    (acc.map Prod.fst).Nodup → ((l.foldl bump acc).map Prod.fst).Nodup := by
  intro l
  induction l with
  | nil => intro acc h; simpa using h
  | cons x l ih => intro acc h; exact ih (bump acc x) (nodup_keys_bump acc x h)

theorem lookupN_of_mem : ∀ (acc : List (List Char × ℕ)), (acc.map Prod.fst).Nodup →
    ∀ p ∈ acc, lookupN acc p.1 = p.2 := by
  intro acc
  induction acc with
  | nil => intro _ p hp; simp at hp
  | cons q rest ih =>
    intro hnd p hp
    obtain ⟨k, v⟩ := q
    rcases List.mem_cons.mp hp with rfl | hp
    · simp [lookupN]
    · have hk : k ≠ p.1 := by
        intro h
        have : p.1 ∈ rest.map Prod.fst := List.mem_map_of_mem Prod.fst hp
        rw [← h] at this
        exact (List.nodup_cons.mp (by simpa using hnd)).1 this
      simp only [lookupN, hk, if_false]
      exact ih (List.nodup_cons.mp (by simpa using hnd)).2 p hp

theorem keys_foldl_bump_subset : ∀ (l : List (List Char)) (acc : List (List Char × ℕ)),
    ∀ x ∈ (l.foldl bump acc).map Prod.fst, x ∈ acc.map Prod.fst ∨ x ∈ l := by
  intro l
  induction l with
  | nil => intro acc x hx; exact Or.inl hx
  | cons y l ih =>
    intro acc x hx
    rcases ih (bump acc y) x hx with h | h
    · rw [bump_keys] at h
      by_cases h2 : y ∈ acc.map Prod.fst
      · rw [if_pos h2] at h; exact Or.inl h
      · rw [if_neg h2] at h
        rcases List.mem_append.mp h with h | h
        · exact Or.inl h
        · simp at h; subst h; exact Or.inr (List.mem_cons_self x l)
    · exact Or.inr (List.mem_cons_of_mem y h)



/-! ## Claim theorems -/

/-- C1: `sentiment` counts, for each word of the fixed positive and negative
sets, one case-insensitive occurrence within the text; the majority wins
(`positive`/`negative`), a tie is `neutral`; a decision has confidence
min(0.9, 0.5 + 0.1 × winning count), a tie exactly 0.6; and the text
"I love this, it is great" is `positive` with confidence 0.7. -/
theorem sentiment_spec :
    (∀ text : List Char,
      ((negative_words.filter (fun w => containsL (pyLower text) w)).length <
          (positive_words.filter (fun w => containsL (pyLower text) w)).length →
        (analyze_sentiment text).sentiment = "positive" ∧
        (analyze_sentiment text).confidence =
          min (9 / 10)
            (1 / 2 + ((positive_words.filter (fun w => containsL (pyLower text) w)).length : ℚ) * (1 / 10))) ∧
      ((positive_words.filter (fun w => containsL (pyLower text) w)).length <
          (negative_words.filter (fun w => containsL (pyLower text) w)).length →
        (analyze_sentiment text).sentiment = "negative" ∧
        (analyze_sentiment text).confidence =
          min (9 / 10)
            (1 / 2 + ((negative_words.filter (fun w => containsL (pyLower text) w)).length : ℚ) * (1 / 10))) ∧
      ((positive_words.filter (fun w => containsL (pyLower text) w)).length =
          (negative_words.filter (fun w => containsL (pyLower text) w)).length →
        (analyze_sentiment text).sentiment = "neutral" ∧
        (analyze_sentiment text).confidence = 3 / 5)) ∧
    ((analyze_sentiment "I love this, it is great".data).sentiment = "positive" ∧
      (analyze_sentiment "I love this, it is great".data).confidence = 7 / 10) := by
  constructor
  · intro text
    refine ⟨fun h => ?_, fun h => ?_, fun h => ?_⟩
    · simp only [analyze_sentiment]
      rw [if_pos h]
      exact ⟨rfl, rfl⟩
    · simp only [analyze_sentiment]
      rw [if_neg (by omega), if_pos h]
      exact ⟨rfl, rfl⟩
    · simp only [analyze_sentiment]
      rw [if_neg (by omega), if_neg (by omega)]
      exact ⟨rfl, rfl⟩
  · have hp : (positive_words.filter (fun w => containsL (pyLower "I love this, it is great".data) w)).length = 2 := by decide
    have hn : (negative_words.filter (fun w => containsL (pyLower "I love this, it is great".data) w)).length = 0 := by decide
    constructor
    · simp only [analyze_sentiment, hp, hn]
      norm_num
    · simp only [analyze_sentiment, hp, hn]
      norm_num

/-- C1 witness: the majority clause applied at the spec's example text. -/
theorem sentiment_spec_witness :
    (analyze_sentiment "I love this, it is great".data).sentiment = "positive" ∧
    (analyze_sentiment "I love this, it is great".data).confidence =
      min (9 / 10)
        (1 / 2 + ((positive_words.filter
          (fun w => containsL (pyLower "I love this, it is great".data) w)).length : ℚ) * (1 / 10)) :=
  (sentiment_spec.1 "I love this, it is great".data).1 (by decide)

/-- C3: for non-empty text the sentiment confidence lies in [0, 0.9]
(which contains the tie value 0.6), and the three score fractions sum
exactly to 1. -/
theorem sentiment_confidence_scores (text : List Char) (h : text ≠ []) :
    0 ≤ (analyze_sentiment text).confidence ∧
    (analyze_sentiment text).confidence ≤ 9 / 10 ∧
    (analyze_sentiment text).scores.positive + (analyze_sentiment text).scores.negative +
      (analyze_sentiment text).scores.neutral = 1 := by
  have hd : ((max (pySplit text).length 1 : ℕ) : ℚ) ≠ 0 := Nat.cast_ne_zero.mpr (by omega)
  simp only [analyze_sentiment]
  split_ifs with h1 h2
  · refine ⟨le_min (by norm_num) (by positivity), min_le_left _ _, ?_⟩
    field_simp
  · refine ⟨le_min (by norm_num) (by positivity), min_le_left _ _, ?_⟩
    field_simp
  · refine ⟨by norm_num, by norm_num, ?_⟩
    field_simp

/-- C3 witness at a concrete non-empty text. -/
theorem sentiment_confidence_scores_witness :
    0 ≤ (analyze_sentiment "hi".data).confidence ∧
    (analyze_sentiment "hi".data).confidence ≤ 9 / 10 ∧
    (analyze_sentiment "hi".data).scores.positive + (analyze_sentiment "hi".data).scores.negative +
      (analyze_sentiment "hi".data).scores.neutral = 1 :=
  sentiment_confidence_scores "hi".data (by decide)

/-- C10: each dictionary word is matched by substring containment and
contributes at most one to its count ("good good good" counts 1), and on a
single token containing all six positive words the positive fraction is 6
(outside [0,1]) and the neutral fraction is -5 (negative). -/
theorem sentiment_substring_matching :
    (∀ text : List Char,
      (positive_words.filter (fun w => containsL (pyLower text) w)).length ≤ 6 ∧
      (negative_words.filter (fun w => containsL (pyLower text) w)).length ≤ 6) ∧
    (positive_words.filter (fun w => containsL (pyLower "good good good".data) w)).length = 1 ∧
    (analyze_sentiment "goodgreatexcellentamazingwonderfullove".data).scores.positive = 6 ∧
    (analyze_sentiment "goodgreatexcellentamazingwonderfullove".data).scores.neutral = -5 ∧
    1 < (analyze_sentiment "goodgreatexcellentamazingwonderfullove".data).scores.positive ∧
    (analyze_sentiment "goodgreatexcellentamazingwonderfullove".data).scores.neutral < 0 := by
  refine ⟨fun text => ⟨?_, ?_⟩, by decide, ?_, ?_, ?_, ?_⟩
  · simpa using List.length_filter_le _ positive_words
  · simpa using List.length_filter_le _ negative_words
  all_goals {
    have hp : (positive_words.filter
        (fun w => containsL (pyLower "goodgreatexcellentamazingwonderfullove".data) w)).length = 6 := by decide
    have hn : (negative_words.filter
        (fun w => containsL (pyLower "goodgreatexcellentamazingwonderfullove".data) w)).length = 0 := by decide
    have hw : (pySplit "goodgreatexcellentamazingwonderfullove".data).length = 1 := by decide
    simp only [analyze_sentiment, hp, hn, hw]
    norm_num
  }


/-- C4: `keywords` tokenizes on whitespace after lowercasing, counts only
tokens longer than 3 characters, returns at most `max_keywords` pairs whose
frequency is the token's occurrence count, in non-increasing frequency order;
the order is the stable descending sort of the first-seen-ordered frequency
map, so equal frequencies keep first-seen order. -/
theorem keywords_spec (text : List Char) (max_keywords : ℕ) :
    (extract_keywords text max_keywords).keywords.length ≤ max_keywords ∧
    (extract_keywords text max_keywords).keywords =
      (extract_keywords text max_keywords).frequencies.map Prod.fst ∧
    (extract_keywords text max_keywords).frequencies =
      (List.insertionSort byFreqDesc (word_freq (pySplit (pyLower text)))).take max_keywords ∧
    (extract_keywords text max_keywords).frequencies.Sorted byFreqDesc ∧
    (∀ p ∈ (extract_keywords text max_keywords).frequencies,
      3 < p.1.length ∧
      p.2 = countL p.1 ((pySplit (pyLower text)).filter (fun w => 3 < w.length))) ∧
    (∀ c : ℕ,
      List.Sublist ((word_freq (pySplit (pyLower text))).filter (fun p => p.2 = c))
        (List.insertionSort byFreqDesc (word_freq (pySplit (pyLower text))))) := by
  refine ⟨?_, rfl, rfl, ?_, ?_, ?_⟩
  · simp only [extract_keywords, List.length_map, List.length_take]
    exact min_le_left _ _
  · simp only [extract_keywords]
    exact List.Pairwise.sublist (List.take_sublist _ _)
      (List.sorted_insertionSort byFreqDesc _)
  · intro p hp
    simp only [extract_keywords] at hp
    have hp2 : p ∈ List.insertionSort byFreqDesc (word_freq (pySplit (pyLower text))) :=
      (List.take_sublist _ _).subset hp
    have hp3 : p ∈ word_freq (pySplit (pyLower text)) :=
      (List.perm_insertionSort byFreqDesc _).mem_iff.mp hp2
    constructor
    · have hkey : p.1 ∈ (word_freq (pySplit (pyLower text))).map Prod.fst :=
        List.mem_map_of_mem Prod.fst hp3
      rcases keys_foldl_bump_subset _ [] p.1 hkey with h | h
      · simp at h
      · simpa using (List.mem_filter.mp h).2
    · have hnd : ((word_freq (pySplit (pyLower text))).map Prod.fst).Nodup :=
        nodup_keys_foldl_bump _ [] (by simp)
      have h1 : lookupN (word_freq (pySplit (pyLower text))) p.1 = p.2 :=
        lookupN_of_mem _ hnd p hp3
      have h2 : lookupN (word_freq (pySplit (pyLower text))) p.1 =
          countL p.1 ((pySplit (pyLower text)).filter (fun w => 3 < w.length)) := by
        have := lookupN_foldl_bump ((pySplit (pyLower text)).filter (fun w => 3 < w.length)) [] p.1
        simpa [word_freq, lookupN] using this
      rw [← h1, h2]
  · intro c
    refine List.sublist_insertionSort ?_ (List.filter_sublist _)
    apply List.pairwise_of_forall_mem_list
    intro a ha b hb
    have ha2 : a.2 = c := by simpa using (List.mem_filter.mp ha).2
    have hb2 : b.2 = c := by simpa using (List.mem_filter.mp hb).2
    show b.2 ≤ a.2
    omega

/-- C4 witness: the per-pair clause applied at a concrete text. -/
theorem keywords_spec_witness :
    3 < ("wonderful".data).length ∧
    2 = countL "wonderful".data
      ((pySplit (pyLower "Wonderful wonderful cat good".data)).filter (fun w => 3 < w.length)) :=
  (keywords_spec "Wonderful wonderful cat good".data 5).2.2.2.2.1
    ("wonderful".data, 2) (by decide)


/-- C2 counterexample: the empty text has 0 ≤ 100 words, yet the summary
operation raises a division-by-zero instead of returning the text
verbatim, so the claim fails as stated for zero-word inputs. -/
theorem summary_empty_counterexample :
    (pySplit "".data).length ≤ 100 ∧ (generate_summary "".data 100).toOption = none := by
  exact ⟨by decide, rfl⟩

/-- C2 (amended to texts with at least one word): with W ≤ 100 words the
summary is the input verbatim (ratio 1); with W > 100 it is the first 100
words joined plus "...", the summary word count is exactly 100, and the
compression ratio 100 / W is strictly below 1. -/
theorem summary_spec (text : List Char) :
    (1 ≤ (pySplit text).length → (pySplit text).length ≤ 100 →
      generate_summary text 100 =
        Except.ok { summary := text, original_length := (pySplit text).length,
                    summary_length := (pySplit text).length, compression_ratio := 1 }) ∧
    (100 < (pySplit text).length →
      generate_summary text 100 =
        Except.ok { summary := joinSpace ((pySplit text).take 100) ++ ['.', '.', '.'],
                    original_length := (pySplit text).length,
                    summary_length := 100,
                    compression_ratio := (100 : ℚ) / ((pySplit text).length : ℚ) } ∧
      ((100 : ℚ) / ((pySplit text).length : ℚ)) < 1) := by
  constructor
  · intro h1 h2
    have e : (if (pySplit text).length ≤ 100 then text
        else joinSpace ((pySplit text).take 100) ++ ['.', '.', '.']) = text := if_pos h2
    have hW : ((pySplit text).length : ℚ) ≠ 0 := Nat.cast_ne_zero.mpr (by omega)
    simp only [generate_summary, e]
    rw [if_neg (by omega : ¬(pySplit text).length = 0), div_self hW]
  · intro h
    have hnot : ¬(pySplit text).length ≤ 100 := by omega
    have e : (if (pySplit text).length ≤ 100 then text
        else joinSpace ((pySplit text).take 100) ++ ['.', '.', '.']) =
        joinSpace ((pySplit text).take 100) ++ ['.', '.', '.'] := if_neg hnot
    have htake : ((pySplit text).take 100).length = 100 := by
      rw [List.length_take]; omega
    have hgood : ∀ u ∈ (pySplit text).take 100, u ≠ [] ∧ ∀ c ∈ u, c.isWhitespace = false :=
      fun u hu => pySplit_good text u ((List.take_sublist _ _).subset hu)
    have hdots : ∀ c ∈ ['.', '.', '.'], c.isWhitespace = false := by decide
    have hne : (pySplit text).take 100 ≠ [] := by
      intro hnil
      rw [hnil] at htake
      simp at htake
    have hlen : (pySplit (joinSpace ((pySplit text).take 100) ++ ['.', '.', '.'])).length = 100 := by
      rw [pySplit_joinSpace_append_length ((pySplit text).take 100) hgood ['.', '.', '.'] hdots hne]
      exact htake
    constructor
    · simp only [generate_summary, e]
      rw [if_neg (by omega : ¬(pySplit text).length = 0), hlen]
      norm_num
    · rw [div_lt_one (by exact_mod_cast (by omega : 0 < (pySplit text).length))]
      exact_mod_cast h

/-- C2 witness: the verbatim branch at a 2-word text and the truncation
branch at a 101-word text. -/
theorem summary_spec_witness :
    (generate_summary "a b".data 100 =
      Except.ok { summary := "a b".data, original_length := (pySplit "a b".data).length,
                  summary_length := (pySplit "a b".data).length, compression_ratio := 1 }) ∧
    (100 : ℚ) / ((pySplit (joinSpace (List.replicate 101 ['w']))).length : ℚ) < 1 :=
  ⟨(summary_spec "a b".data).1 (by decide) (by decide),
   ((summary_spec (joinSpace (List.replicate 101 ['w']))).2 (by decide)).2⟩

/-- C9: a text with zero words (empty or whitespace-only) makes the summary
computation divide by zero, and the endpoint turns this into a failed-status
envelope instead of returning the text verbatim. -/
theorem summary_zero_words (text : List Char) (h : pySplit text = []) :
    generate_summary text 100 = Except.error "division by zero" ∧
    (analyze_text text "summary").status = "failed" ∧
    (analyze_text text "summary").result = none := by
  have h0 : (pySplit text).length = 0 := by rw [h]; rfl
  have hgen : generate_summary text 100 = Except.error "division by zero" := by
    simp only [generate_summary]
    rw [if_pos h0]
  refine ⟨hgen, ?_, ?_⟩ <;>
  · simp [analyze_text, hgen]

/-- C9 witness at a whitespace-only text. -/
theorem summary_zero_words_witness :
    generate_summary "   ".data 100 = Except.error "division by zero" ∧
    (analyze_text "   ".data "summary").status = "failed" ∧
    (analyze_text "   ".data "summary").result = none :=
  summary_zero_words "   ".data (by decide)


/-- C5: an unsupported `analysis_type` on the text or image endpoint always
yields a failed-status envelope with a non-empty error and no result, never a
completed status. -/
theorem unsupported_type_fails :
    (∀ (text : List Char) (ty : String),
      ty ≠ "sentiment" → ty ≠ "keywords" → ty ≠ "summary" →
      (analyze_text text ty).status = "failed" ∧
      (analyze_text text ty).status ≠ "completed" ∧
      (analyze_text text ty).result = none ∧
      ∃ e, (analyze_text text ty).error = some e ∧ e ≠ "") ∧
    (∀ (u d : Option String) (ty : String), ty ≠ "classification" →
      (analyze_image u d ty).status = "failed" ∧
      (analyze_image u d ty).status ≠ "completed" ∧
      (analyze_image u d ty).result = none ∧
      ∃ e, (analyze_image u d ty).error = some e ∧ e ≠ "") := by
  constructor
  · intro text ty h1 h2 h3
    have e : analyze_text text ty =
        { status := "failed", result := none, confidence := none,
          error := some ("400: Unsupported analysis type: " ++ ty) } := by
      simp only [analyze_text]
      rw [if_neg h1, if_neg h2, if_neg h3]
    rw [e]
    refine ⟨rfl, by simp, rfl, "400: Unsupported analysis type: " ++ ty, rfl, ?_⟩
    intro hcontra
    have hdata : ("400: Unsupported analysis type: " ++ ty).data = [] :=
      congrArg String.data hcontra
    have hsplit : ("400: Unsupported analysis type: " ++ ty).data =
        "400: Unsupported analysis type: ".data ++ ty.data := rfl
    rw [hsplit] at hdata
    exact absurd hdata (by simp)
  · intro u d ty h1
    have e : analyze_image u d ty =
        { status := "failed", result := none, confidence := none,
          error := some ("400: Unsupported analysis type: " ++ ty) } := by
      simp only [analyze_image]
      rw [if_neg h1]
    rw [e]
    refine ⟨rfl, by simp, rfl, "400: Unsupported analysis type: " ++ ty, rfl, ?_⟩
    intro hcontra
    have hdata : ("400: Unsupported analysis type: " ++ ty).data = [] :=
      congrArg String.data hcontra
    have hsplit : ("400: Unsupported analysis type: " ++ ty).data =
        "400: Unsupported analysis type: ".data ++ ty.data := rfl
    rw [hsplit] at hdata
    exact absurd hdata (by simp)

/-- C5 witness: both endpoints at the unsupported selector "bogus". -/
theorem unsupported_type_fails_witness :
    ((analyze_text "hi".data "bogus").status = "failed" ∧
      (analyze_text "hi".data "bogus").status ≠ "completed" ∧
      (analyze_text "hi".data "bogus").result = none ∧
      ∃ e, (analyze_text "hi".data "bogus").error = some e ∧ e ≠ "") ∧
    ((analyze_image none none "bogus").status = "failed" ∧
      (analyze_image none none "bogus").status ≠ "completed" ∧
      (analyze_image none none "bogus").result = none ∧
      ∃ e, (analyze_image none none "bogus").error = some e ∧ e ≠ "") :=
  ⟨unsupported_type_fails.1 "hi".data "bogus" (by decide) (by decide) (by decide),
   unsupported_type_fails.2 none none "bogus" (by decide)⟩

/-- C6: the ML-prediction outcome depends only on `model_name`;
"regression" gives a completed response with prediction 42.5 and the fixed
importances, "classification" the fixed class label and probabilities, and
every other name a failed status whose error mentions "Unknown model". -/
theorem ml_prediction_spec :
    (∀ (n : String) (i i' : List (String × String))
        (p p' : Option (List (String × String))),
      ml_prediction n i p = ml_prediction n i' p') ∧
    (∀ i p, ml_prediction "regression" i p =
      { status := "completed"
        result := some (.regressionResult (85 / 2)
          [("feature1", 3 / 10), ("feature2", 1 / 4), ("feature3", 9 / 20)])
        confidence := some (4 / 5), error := none }) ∧
    (∀ i p, ml_prediction "classification" i p =
      { status := "completed"
        result := some (.classificationResult "class_A"
          [("class_A", 7 / 10), ("class_B", 1 / 5), ("class_C", 1 / 10)])
        confidence := some (4 / 5), error := none }) ∧
    (∀ (n : String) i p, n ≠ "regression" → n ≠ "classification" →
      (ml_prediction n i p).status = "failed" ∧
      (ml_prediction n i p).status ≠ "completed" ∧
      (ml_prediction n i p).result = none ∧
      ∃ e, (ml_prediction n i p).error = some e ∧
        containsL e.data "Unknown model".data = true) := by
  refine ⟨fun n i i' p p' => rfl, fun i p => rfl, fun i p => rfl, ?_⟩
  intro n i p h1 h2
  have e : ml_prediction n i p =
      { status := "failed", result := none, confidence := none,
        error := some ("400: Unknown model: " ++ n) } := by
    simp only [ml_prediction]
    rw [if_neg h1, if_neg h2]
  rw [e]
  refine ⟨rfl, by simp, rfl, "400: Unknown model: " ++ n, rfl, ?_⟩
  have hd : ("400: Unknown model: " ++ n).data =
      "400: ".data ++ ("Unknown model".data ++ (": ".data ++ n.data)) := by
    have h1 : ("400: Unknown model: " ++ n).data =
        "400: Unknown model: ".data ++ n.data := rfl
    have h2 : ("400: Unknown model: ".data : List Char) =
        ("400: ".data ++ "Unknown model".data) ++ ": ".data := by decide
    rw [h1, h2]
    simp [List.append_assoc]
  rw [hd]
  exact containsL_infix _ _ _

/-- C6 witness: the spec's failing example `model_name = "unknown_model"`. -/
theorem ml_prediction_spec_witness :
    (ml_prediction "unknown_model" [] none).status = "failed" ∧
    (ml_prediction "unknown_model" [] none).status ≠ "completed" ∧
    (ml_prediction "unknown_model" [] none).result = none ∧
    ∃ e, (ml_prediction "unknown_model" [] none).error = some e ∧
      containsL e.data "Unknown model".data = true :=
  ml_prediction_spec.2.2.2 "unknown_model" [] none (by decide) (by decide)

/-- C7: the image-classification response is a fixed constant — the same for
any two image inputs, with the fixed label/confidence list, dominant color
and quality tag. -/
theorem image_independent :
    (∀ (u d u' d' : Option String),
      analyze_image u d "classification" = analyze_image u' d' "classification") ∧
    (∀ u d, analyze_image u d "classification" =
      { status := "completed", result := some classification_result,
        confidence := some (17 / 20), error := none }) ∧
    classification_result =
      { predictions := [⟨"cat", 17 / 20⟩, ⟨"animal", 23 / 25⟩, ⟨"pet", 39 / 50⟩]
        dominant_color := "#8B4513", image_quality := "high" } :=
  ⟨fun _ _ _ _ => rfl, fun _ _ => rfl, rfl⟩

/-- C8: the model catalog returned by `GET /api/v1/models` is the same fixed
5-entry list after any sequence of prior requests. -/
theorem models_constant :
    (∀ prior : List Request,
      serve (prior ++ [Request.models]) = serve prior ++ [Response.models list_models]) ∧
    list_models.length = 5 ∧
    list_models =
      [⟨"sentiment_analyzer", "text_analysis", "Analyzes sentiment in text"⟩,
       ⟨"keyword_extractor", "text_analysis", "Extracts keywords from text"⟩,
       ⟨"image_classifier", "computer_vision", "Classifies images"⟩,
       ⟨"regression_model", "regression", "Predicts continuous values"⟩,
       ⟨"classification_model", "classification", "Predicts categorical values"⟩] := by
  refine ⟨fun prior => ?_, rfl, rfl⟩
  simp [serve, handle]


end PyGoRP
